import Mathlib

/-!
Verification of the SEO metadata consistency engine of the admin panel:
the predefined-page catalog overlay, slug-uniqueness checking, redirect
loop/chain safety, list caching, and the bulk operations.  The route
handlers and the predefined-pages catalog module are embedded from the
sources; the few library helpers that are genuinely absent from the sources
(SEOCache, Redirect.checkRedirectChain, createRedirectSafely, the
content-security validator) are modelled from the specification and marked
as such in their doc comments.
-/

namespace Seo

/-- The `PredefinedPage` interface of the predefined-pages module
(src/unnamed/part_005): path, defaultSlug, category, defaultTitle,
defaultDescription.  The category, a closed union of the six literals main,
services, blog, about, contact and other in the source, is embedded as the
string it is at runtime. -/
structure PredefinedPage where
  path : String
  defaultSlug : String
  category : String
  defaultTitle : String
  defaultDescription : String
deriving DecidableEq, Repr

/-- The `PREDEFINED_PAGES` array of the predefined-pages module
(src/unnamed/part_005), all fifty-five entries verbatim. -/
def PREDEFINED_PAGES : List PredefinedPage :=
  [
   { path := "/",
     defaultSlug := "home",
     category := "main",
     defaultTitle := "Altiora Infotech - AI, Web3 & Growth Engineering Solutions",
     defaultDescription := "Leading AI, Web3, and growth engineering solutions for modern businesses. Transform your digital presence with cutting-edge technology." },
   { path := "/about",
     defaultSlug := "about-us",
     category := "about",
     defaultTitle := "About Altiora Infotech - Innovation & Excellence",
     defaultDescription := "Learn about Altiora Infotech's mission to deliver innovative AI, Web3, and growth engineering solutions for businesses worldwide." },
   { path := "/contact",
     defaultSlug := "contact-us",
     category := "contact",
     defaultTitle := "Contact Altiora Infotech - Get In Touch",
     defaultDescription := "Contact Altiora Infotech for AI, Web3, and growth engineering solutions. Let's discuss your project requirements." },
   { path := "/careers",
     defaultSlug := "careers",
     category := "other",
     defaultTitle := "Careers at Altiora Infotech - Join Our Team",
     defaultDescription := "Join Altiora Infotech and work on cutting-edge AI, Web3, and growth engineering projects. Explore career opportunities." },
   { path := "/portfolio",
     defaultSlug := "portfolio",
     category := "other",
     defaultTitle := "Portfolio - Altiora Infotech Projects & Case Studies",
     defaultDescription := "Explore Altiora Infotech's portfolio of successful AI, Web3, and growth engineering projects and case studies." },
   { path := "/services/ai-ml",
     defaultSlug := "ai-ml-services",
     category := "services",
     defaultTitle := "AI & ML Services - Machine Learning Solutions | Altiora Infotech",
     defaultDescription := "Comprehensive AI and machine learning services to transform your business with intelligent automation and data-driven insights." },
   { path := "/services/ai-ml/machine-learning-development",
     defaultSlug := "machine-learning-development",
     category := "services",
     defaultTitle := "Machine Learning Development Services | Altiora Infotech",
     defaultDescription := "Custom machine learning development services for predictive analytics, automation, and intelligent business solutions." },
   { path := "/services/ai-ml/natural-language-processing",
     defaultSlug := "natural-language-processing",
     category := "services",
     defaultTitle := "Natural Language Processing Services | NLP Solutions",
     defaultDescription := "Advanced NLP services for text analysis, chatbots, sentiment analysis, and language understanding applications." },
   { path := "/services/ai-ml/computer-vision",
     defaultSlug := "computer-vision-services",
     category := "services",
     defaultTitle := "Computer Vision Services - Image & Video Analysis",
     defaultDescription := "Computer vision solutions for image recognition, object detection, and automated visual analysis applications." },
   { path := "/services/ai-ml/deep-learning",
     defaultSlug := "deep-learning-services",
     category := "services",
     defaultTitle := "Deep Learning Services - Neural Network Solutions",
     defaultDescription := "Deep learning and neural network development for complex pattern recognition and AI-powered applications." },
   { path := "/services/web3",
     defaultSlug := "web3-services",
     category := "services",
     defaultTitle := "Web3 Development Services - Blockchain & DeFi Solutions",
     defaultDescription := "Complete Web3 development services including blockchain, DeFi, NFTs, and decentralized application development." },
   { path := "/services/web3/blockchain-development-services-building-the-future-of-web3-with-altiora-infotech",
     defaultSlug := "blockchain-development-services-building-the-future-of-web3-with-altiora-infotech",
     category := "services",
     defaultTitle := "Blockchain Development Services - Building the Future of Web3 | Altiora Infotech",
     defaultDescription := "Expert blockchain development services for Web3 applications, smart contracts, and decentralized solutions. Build the future with Altiora Infotech." },
   { path := "/services/web3/smart-contract-development",
     defaultSlug := "smart-contract-development",
     category := "services",
     defaultTitle := "Smart Contract Development Services | Ethereum & Solidity",
     defaultDescription := "Professional smart contract development services for Ethereum, Binance Smart Chain, and other blockchain platforms." },
   { path := "/services/web3/defi-development",
     defaultSlug := "defi-development-services",
     category := "services",
     defaultTitle := "DeFi Development Services - Decentralized Finance Solutions",
     defaultDescription := "DeFi development services for decentralized exchanges, lending platforms, yield farming, and financial protocols." },
   { path := "/services/web3/nft-marketplace-development",
     defaultSlug := "nft-marketplace-development",
     category := "services",
     defaultTitle := "NFT Marketplace Development - Create Your NFT Platform",
     defaultDescription := "Custom NFT marketplace development services with advanced features for trading, minting, and managing digital assets." },
   { path := "/services/web3/dapp-development",
     defaultSlug := "dapp-development-services",
     category := "services",
     defaultTitle := "DApp Development Services - Decentralized Applications",
     defaultDescription := "Decentralized application development services for Web3 platforms with user-friendly interfaces and robust functionality." },
   { path := "/services/growth-engineering",
     defaultSlug := "growth-engineering-services",
     category := "services",
     defaultTitle := "Growth Engineering Services - Data-Driven Growth Solutions",
     defaultDescription := "Growth engineering services combining data analytics, automation, and optimization for sustainable business growth." },
   { path := "/services/growth-engineering/conversion-optimization",
     defaultSlug := "conversion-optimization-services",
     category := "services",
     defaultTitle := "Conversion Rate Optimization Services | CRO Solutions",
     defaultDescription := "Conversion rate optimization services to maximize your website performance and increase customer conversions." },
   { path := "/services/growth-engineering/analytics-implementation",
     defaultSlug := "analytics-implementation-services",
     category := "services",
     defaultTitle := "Analytics Implementation Services - Data Tracking Solutions",
     defaultDescription := "Professional analytics implementation services for comprehensive data tracking and business intelligence insights." },
   { path := "/services/growth-engineering/marketing-automation",
     defaultSlug := "marketing-automation-services",
     category := "services",
     defaultTitle := "Marketing Automation Services - Streamline Your Marketing",
     defaultDescription := "Marketing automation services to streamline campaigns, nurture leads, and optimize customer engagement workflows." },
   { path := "/services/growth-engineering/ab-testing",
     defaultSlug := "ab-testing-services",
     category := "services",
     defaultTitle := "A/B Testing Services - Optimize Your Conversions",
     defaultDescription := "Professional A/B testing services to optimize user experience, increase conversions, and drive data-driven decisions." },
   { path := "/services/web-development",
     defaultSlug := "web-development-services",
     category := "services",
     defaultTitle := "Web Development Services - Custom Web Solutions",
     defaultDescription := "Professional web development services for custom websites, web applications, and digital solutions tailored to your business." },
   { path := "/services/web-development/react-development",
     defaultSlug := "react-development-services",
     category := "services",
     defaultTitle := "React Development Services - Modern Web Applications",
     defaultDescription := "Expert React development services for building fast, scalable, and interactive web applications with modern UI/UX." },
   { path := "/services/web-development/nextjs-development",
     defaultSlug := "nextjs-development-services",
     category := "services",
     defaultTitle := "Next.js Development Services - Full-Stack React Solutions",
     defaultDescription := "Next.js development services for server-side rendered applications, static sites, and full-stack React solutions." },
   { path := "/services/web-development/nodejs-development",
     defaultSlug := "nodejs-development-services",
     category := "services",
     defaultTitle := "Node.js Development Services - Backend Solutions",
     defaultDescription := "Node.js development services for scalable backend applications, APIs, and server-side solutions." },
   { path := "/services/web-development/ecommerce-development",
     defaultSlug := "ecommerce-development-services",
     category := "services",
     defaultTitle := "E-commerce Development Services - Online Store Solutions",
     defaultDescription := "Custom e-commerce development services for online stores, marketplaces, and digital commerce platforms." },
   { path := "/services/mobile-development",
     defaultSlug := "mobile-development-services",
     category := "services",
     defaultTitle := "Mobile App Development Services - iOS & Android Apps",
     defaultDescription := "Professional mobile app development services for iOS and Android platforms with native and cross-platform solutions." },
   { path := "/services/mobile-development/react-native-development",
     defaultSlug := "react-native-development-services",
     category := "services",
     defaultTitle := "React Native Development Services - Cross-Platform Apps",
     defaultDescription := "React Native development services for cross-platform mobile applications with native performance and user experience." },
   { path := "/services/mobile-development/flutter-development",
     defaultSlug := "flutter-development-services",
     category := "services",
     defaultTitle := "Flutter Development Services - Cross-Platform Mobile Apps",
     defaultDescription := "Flutter development services for beautiful, fast, and cross-platform mobile applications with single codebase." },
   { path := "/services/mobile-development/ios-development",
     defaultSlug := "ios-development-services",
     category := "services",
     defaultTitle := "iOS App Development Services - Native iPhone Apps",
     defaultDescription := "Native iOS app development services for iPhone and iPad applications with optimal performance and user experience." },
   { path := "/services/mobile-development/android-development",
     defaultSlug := "android-development-services",
     category := "services",
     defaultTitle := "Android App Development Services - Native Android Apps",
     defaultDescription := "Native Android app development services for smartphones and tablets with Google Play Store optimization." },
   { path := "/services/cloud-services",
     defaultSlug := "cloud-services",
     category := "services",
     defaultTitle := "Cloud Services - AWS, Azure & Google Cloud Solutions",
     defaultDescription := "Comprehensive cloud services including migration, deployment, and management on AWS, Azure, and Google Cloud platforms." },
   { path := "/services/cloud-services/aws-development",
     defaultSlug := "aws-development-services",
     category := "services",
     defaultTitle := "AWS Development Services - Amazon Web Services Solutions",
     defaultDescription := "AWS development services for cloud infrastructure, serverless applications, and scalable cloud solutions on Amazon Web Services." },
   { path := "/services/cloud-services/azure-development",
     defaultSlug := "azure-development-services",
     category := "services",
     defaultTitle := "Azure Development Services - Microsoft Cloud Solutions",
     defaultDescription := "Microsoft Azure development services for enterprise cloud applications, infrastructure, and digital transformation solutions." },
   { path := "/services/cloud-services/google-cloud-development",
     defaultSlug := "google-cloud-development-services",
     category := "services",
     defaultTitle := "Google Cloud Development Services - GCP Solutions",
     defaultDescription := "Google Cloud Platform development services for scalable applications, data analytics, and machine learning solutions." },
   { path := "/services/cloud-services/serverless-development",
     defaultSlug := "serverless-development-services",
     category := "services",
     defaultTitle := "Serverless Development Services - Function-as-a-Service",
     defaultDescription := "Serverless development services for cost-effective, scalable applications using AWS Lambda, Azure Functions, and Google Cloud Functions." },
   { path := "/services/devops",
     defaultSlug := "devops-services",
     category := "services",
     defaultTitle := "DevOps Services - CI/CD & Infrastructure Automation",
     defaultDescription := "DevOps services for continuous integration, deployment automation, infrastructure management, and development workflow optimization." },
   { path := "/services/devops/ci-cd-implementation",
     defaultSlug := "ci-cd-implementation-services",
     category := "services",
     defaultTitle := "CI/CD Implementation Services - Continuous Integration & Deployment",
     defaultDescription := "CI/CD implementation services for automated testing, deployment pipelines, and continuous integration workflows." },
   { path := "/services/devops/docker-kubernetes",
     defaultSlug := "docker-kubernetes-services",
     category := "services",
     defaultTitle := "Docker & Kubernetes Services - Container Orchestration",
     defaultDescription := "Docker and Kubernetes services for containerization, orchestration, and scalable microservices architecture." },
   { path := "/services/devops/infrastructure-as-code",
     defaultSlug := "infrastructure-as-code-services",
     category := "services",
     defaultTitle := "Infrastructure as Code Services - IaC Solutions",
     defaultDescription := "Infrastructure as Code services using Terraform, CloudFormation, and other IaC tools for automated infrastructure management." },
   { path := "/services/data-services",
     defaultSlug := "data-services",
     category := "services",
     defaultTitle := "Data Services - Analytics, Engineering & Science Solutions",
     defaultDescription := "Comprehensive data services including data engineering, analytics, visualization, and data science solutions for business insights." },
   { path := "/services/data-services/data-engineering",
     defaultSlug := "data-engineering-services",
     category := "services",
     defaultTitle := "Data Engineering Services - ETL & Data Pipeline Solutions",
     defaultDescription := "Data engineering services for ETL processes, data pipelines, data warehousing, and big data processing solutions." },
   { path := "/services/data-services/data-analytics",
     defaultSlug := "data-analytics-services",
     category := "services",
     defaultTitle := "Data Analytics Services - Business Intelligence Solutions",
     defaultDescription := "Data analytics services for business intelligence, reporting, dashboard creation, and data-driven decision making." },
   { path := "/services/data-services/data-visualization",
     defaultSlug := "data-visualization-services",
     category := "services",
     defaultTitle := "Data Visualization Services - Interactive Dashboards",
     defaultDescription := "Data visualization services for interactive dashboards, charts, and visual analytics using modern visualization tools." },
   { path := "/services/ui-ux-design",
     defaultSlug := "ui-ux-design-services",
     category := "services",
     defaultTitle := "UI/UX Design Services - User Experience & Interface Design",
     defaultDescription := "Professional UI/UX design services for web and mobile applications with focus on user experience and modern design principles." },
   { path := "/services/ui-ux-design/web-design",
     defaultSlug := "web-design-services",
     category := "services",
     defaultTitle := "Web Design Services - Modern Website Design",
     defaultDescription := "Creative web design services for modern, responsive, and user-friendly websites that engage and convert visitors." },
   { path := "/services/ui-ux-design/mobile-app-design",
     defaultSlug := "mobile-app-design-services",
     category := "services",
     defaultTitle := "Mobile App Design Services - iOS & Android UI/UX",
     defaultDescription := "Mobile app design services for iOS and Android applications with intuitive user interfaces and exceptional user experience." },
   { path := "/services/ui-ux-design/user-research",
     defaultSlug := "user-research-services",
     category := "services",
     defaultTitle := "User Research Services - UX Research & Testing",
     defaultDescription := "User research services including usability testing, user interviews, and UX research for data-driven design decisions." },
   { path := "/blog",
     defaultSlug := "blog",
     category := "blog",
     defaultTitle := "Blog - Latest Insights on AI, Web3 & Technology | Altiora Infotech",
     defaultDescription := "Stay updated with the latest insights, trends, and tutorials on AI, Web3, blockchain, and modern technology from Altiora Infotech experts." },
   { path := "/blog/ai-trends-2024",
     defaultSlug := "ai-trends-2024",
     category := "blog",
     defaultTitle := "AI Trends 2024 - Future of Artificial Intelligence",
     defaultDescription := "Explore the top AI trends for 2024 and discover how artificial intelligence is shaping the future of business and technology." },
   { path := "/blog/web3-development-guide",
     defaultSlug := "web3-development-guide",
     category := "blog",
     defaultTitle := "Web3 Development Guide - Complete Beginner's Tutorial",
     defaultDescription := "Complete guide to Web3 development covering blockchain, smart contracts, DeFi, and decentralized application development." },
   { path := "/blog/blockchain-business-benefits",
     defaultSlug := "blockchain-business-benefits",
     category := "blog",
     defaultTitle := "Blockchain Business Benefits - Transform Your Enterprise",
     defaultDescription := "Discover how blockchain technology can transform your business with improved security, transparency, and operational efficiency." },
   { path := "/privacy-policy",
     defaultSlug := "privacy-policy",
     category := "other",
     defaultTitle := "Privacy Policy - Altiora Infotech",
     defaultDescription := "Privacy policy for Altiora Infotech outlining how we collect, use, and protect your personal information and data." },
   { path := "/terms-of-service",
     defaultSlug := "terms-of-service",
     category := "other",
     defaultTitle := "Terms of Service - Altiora Infotech",
     defaultDescription := "Terms of service for Altiora Infotech services including usage guidelines, limitations, and legal agreements." },
   { path := "/sitemap",
     defaultSlug := "sitemap",
     category := "other",
     defaultTitle := "Sitemap - Altiora Infotech Website Navigation",
     defaultDescription := "Complete sitemap of Altiora Infotech website with links to all pages, services, and resources for easy navigation." }
  ]

/-- `getPredefinedPageByPath` of the predefined-pages module
(src/unnamed/part_005): `PREDEFINED_PAGES.find(page => page.path === path)`. -/
def getPredefinedPageByPath (path : String) : Option PredefinedPage :=
  PREDEFINED_PAGES.find? (fun page => page.path == path)

/-- A persisted SEO override record (collection `seo_pages`), with the fields
the route handlers read and write.  The `openGraph` sub-object and the audit
fields are omitted: no claim mentions them. -/
structure SEOPageRecord where
  siteId : String
  path : String
  slug : String
  metaTitle : String
  metaDescription : String
  robots : String
  pageCategory : String
  isCustom : Bool
deriving DecidableEq, Repr

/-- The SEO record store, as the list of persisted records. -/
abbrev Store := List SEOPageRecord

/-- `SEOPage.findOne({ siteId, path })`. -/
def findOne (store : Store) (siteId path : String) : Option SEOPageRecord :=
  store.find? (fun r => r.siteId == siteId && r.path == path)

/-- JavaScript string fallback `a || b`: the empty string is falsy. -/
def jsOr (s d : String) : String := if s == "" then d else s

/-- JavaScript fallback `a?.f || b` for an optional record field. -/
def jsOrOpt (o : Option String) (d : String) : String :=
  match o with
  | some s => jsOr s d
  | none => d

/-- The composed page view returned by GET `/api/admin/seo-pages/[path]`
(route.ts lines 62-80). -/
structure PageView where
  path : String
  slug : String
  metaTitle : String
  metaDescription : String
  robots : String
  isCustom : Bool
  pageCategory : String
  hasCustomSeo : Bool
deriving DecidableEq, Repr

/-- The overlay of an optional override record onto the catalog defaults,
exactly as built by the GET handler of `[path]/route.ts`. -/
def composeView (pp : PredefinedPage) (r? : Option SEOPageRecord) : PageView :=
  { path := pp.path
    slug := jsOrOpt (r?.map (fun r => r.slug)) pp.defaultSlug
    metaTitle := jsOrOpt (r?.map (fun r => r.metaTitle)) pp.defaultTitle
    metaDescription :=
      jsOrOpt (r?.map (fun r => r.metaDescription)) pp.defaultDescription
    robots := jsOrOpt (r?.map (fun r => r.robots)) "index,follow"
    isCustom := (r?.map (fun r => r.isCustom)).getD false
    pageCategory := jsOrOpt (r?.map (fun r => r.pageCategory)) pp.category
    hasCustomSeo := r?.isSome }

/-- GET `/api/admin/seo-pages/[path]` after path decoding: `none` is the 404
"Page not found in predefined pages" branch. -/
def getPage (store : Store) (siteId path : String) : Option PageView :=
  match getPredefinedPageByPath path with
  | none => none
  | some pp => some (composeView pp (findOne store siteId path))

/-- The record created for a catalog page by the seed endpoint
(POST `/api/admin/seo-pages/seed`, which marks seeded pages
`isCustom: false`). -/
def seedRecord (siteId : String) (pp : PredefinedPage) : SEOPageRecord :=
  { siteId := siteId
    path := pp.path
    slug := pp.defaultSlug
    metaTitle := pp.defaultTitle
    metaDescription := pp.defaultDescription
    robots := "index,follow"
    pageCategory := pp.category
    isCustom := false }

/-! ## Path parameter decoding (`decodePath` of `[path]/route.ts`) -/

/-- One hexadecimal digit, as used by percent-decoding. -/
def hexVal (c : Char) : Option Nat :=
  if '0' ≤ c ∧ c ≤ '9' then some (c.toNat - '0'.toNat)
  else if 'a' ≤ c ∧ c ≤ 'f' then some (c.toNat - 'a'.toNat + 10)
  else if 'A' ≤ c ∧ c ≤ 'F' then some (c.toNat - 'A'.toNat + 10)
  else none

/-- Percent-decoding, the model of the JavaScript builtin `decodeURIComponent`
used by `decodePath`; strings are embedded as lists of characters.  A percent
sign must be followed by two hexadecimal digits, otherwise decoding fails
(which `decodeURIComponent` signals by throwing `URIError`). -/
def percentDecode : List Char → Option (List Char)
  | [] => some []
  | c :: rest =>
    if c = '%' then
      match rest with
      | c1 :: c2 :: rest2 =>
        match hexVal c1, hexVal c2 with
        | some hi, some lo =>
          (percentDecode rest2).map (fun ds => Char.ofNat (16 * hi + lo) :: ds)
        | _, _ => none
      | _ => none
    else
      (percentDecode rest).map (fun ds => c :: ds)

/-- The characters of the string "home". -/
def homeChars : List Char := ['h', 'o', 'm', 'e']

/-- `decodePath` of `[path]/route.ts`: percent-decode, then prepend a leading
slash unless the decoded value is exactly "home" or already starts with one;
`none` is the thrown "Invalid path encoding" error. -/
def decodePath (encoded : List Char) : Option (List Char) :=
  match percentDecode encoded with
  | none => none
  | some d =>
    if d ≠ homeChars ∧ d.head? ≠ some '/' then some ('/' :: d) else some d

/-! ## Redirect store and chain checking -/

/-- A persisted redirect (collection `redirects`). -/
structure RedirectRecord where
  siteId : String
  fromPath : String
  toPath : String
  statusCode : Nat
deriving DecidableEq, Repr

/-- The redirect store, as the list of persisted redirects. -/
abbrev Redirects := List RedirectRecord

/-- `Redirect.findOne({ siteId, from })`. -/
def findRedirectFrom (rs : Redirects) (siteId f : String) :
    Option RedirectRecord :=
  rs.find? (fun r => r.siteId == siteId && r.fromPath == f)

/-- The destination of the stored redirect leaving `x`, if any. -/
def succOf (rs : Redirects) (siteId x : String) : Option String :=
  (findRedirectFrom rs siteId x).map (fun r => r.toPath)

/-- `iterSucc rs siteId k x` follows `k` stored redirects starting at `x`;
`none` when the chain is shorter than `k`. -/
def iterSucc (rs : Redirects) (siteId : String) : Nat → String → Option String
  | 0, x => some x
  | n + 1, x =>
    match succOf rs siteId x with
    | none => none
    | some y => iterSucc rs siteId n y

/-- The result shape of `Redirect.checkRedirectChain`. -/
structure ChainCheck where
  isLoop : Bool
  hasChain : Bool
  depth : Nat
deriving DecidableEq, Repr

/-- The bounded forward walk of the chain check: `cur` is the node being
visited, `hops` the number of redirects already followed from the new
redirect's destination.  A visit to the new redirect's source `fromP` is a
loop; `depth` counts the new redirect plus the hops followed, so that a
chain of four stored hops behind the destination yields depth 5. -/
def chainWalk (rs : Redirects) (siteId fromP : String) :
    Nat → String → Nat → ChainCheck
  | 0, _, hops => { isLoop := false, hasChain := hops > 0, depth := hops + 1 }
  | fuel + 1, cur, hops =>
    if cur == fromP then
      { isLoop := true, hasChain := hops > 0, depth := hops + 1 }
    else
      match succOf rs siteId cur with
      | none => { isLoop := false, hasChain := hops > 0, depth := hops + 1 }
      | some nxt => chainWalk rs siteId fromP fuel nxt (hops + 1)

/-- The walk bound; the spec only requires the walk to terminate even on
pre-existing cycles, bounded by the max-depth check. -/
def maxChainFuel : Nat := 10

/-- Modelled from the spec: `Redirect.checkRedirectChain` lives in
`lib/models/Redirect.ts`, which is not among the sources.  Spec section 4.3:
follow the destination's outgoing redirects, detecting a revisit of the new
source as a loop and counting hops so that the reported depth is the
resulting chain length from the new source; the walk terminates even on
pre-existing cycles. -/
def checkRedirectChain (rs : Redirects) (siteId fromP toP : String) :
    ChainCheck :=
  chainWalk rs siteId fromP maxChainFuel toP 0

/-- The failure reasons of safe redirect creation (spec section 7). -/
inductive RedirectFailure
  | redirectLoop
  | redirectChainTooLong
  | redirectExists
deriving DecidableEq, Repr

/-- The structured result of `createRedirectSafely`. -/
structure RedirectResult where
  success : Bool
  failure? : Option RedirectFailure
deriving DecidableEq, Repr

/-- Modelled from the spec: `createRedirectSafely` of `lib/seo-utils.ts` is
not among the sources.  Spec section 4.3: check for a loop, then for a
too-long chain (resulting length from the new source reaching 5), then for an
existing redirect with the same source; persist only when every check passes,
and return a structured failure instead of throwing. -/
def createRedirectSafely (rs : Redirects) (siteId fromP toP : String)
    (statusCode : Nat) : RedirectResult × Redirects :=
  let chain := checkRedirectChain rs siteId fromP toP
  if chain.isLoop = true then
    ({ success := false, failure? := some .redirectLoop }, rs)
  else if chain.hasChain = true ∧ 5 ≤ chain.depth then
    ({ success := false, failure? := some .redirectChainTooLong }, rs)
  else
    match findRedirectFrom rs siteId fromP with
    | some _ => ({ success := false, failure? := some .redirectExists }, rs)
    | none =>
      ({ success := true, failure? := none },
        rs ++ [{ siteId := siteId, fromPath := fromP, toPath := toP,
                 statusCode := statusCode }])

/-- The outcome of POST `/api/admin/seo-pages/redirects`. -/
inductive RedirectOutcome
  | securityFailed
  | alreadyExists
  | loopDetected
  | chainTooLong
  | created (r : RedirectRecord)
deriving DecidableEq, Repr

/-- POST `/api/admin/seo-pages/redirects` (redirects/route.ts lines 95-166):
content-security check on both paths, existing-redirect check, then the chain
check; the new redirect is saved only after every check passes.  The
content-security validator is a parameter, its implementation not being among
the sources. -/
def redirectsPOST (secure : String → Bool) (rs : Redirects)
    (siteId fromP toP : String) (statusCode : Nat) :
    RedirectOutcome × Redirects :=
  if !(secure fromP) || !(secure toP) then (.securityFailed, rs)
  else
    match findRedirectFrom rs siteId fromP with
    | some _ => (.alreadyExists, rs)
    | none =>
      let chain := checkRedirectChain rs siteId fromP toP
      if chain.isLoop = true then (.loopDetected, rs)
      else if chain.hasChain = true ∧ 5 ≤ chain.depth then (.chainTooLong, rs)
      else
        let r : RedirectRecord :=
          { siteId := siteId, fromPath := fromP, toPath := toP,
            statusCode := statusCode }
        (.created r, rs ++ [r])

/-- The length of the stored redirect chain leaving `x` (bounded by fuel),
used to measure chains from arbitrary starting points. -/
def chainLenFrom (rs : Redirects) (siteId : String) : Nat → String → Nat
  | 0, _ => 0
  | fuel + 1, x =>
    match succOf rs siteId x with
    | none => 0
    | some y => 1 + chainLenFrom rs siteId fuel y

/-! ## Single-page write path (PUT/DELETE of `[path]/route.ts`, POST of the
seo-pages collection route) -/

/-- The optional fields of a PUT update (`updateSeoPageSchema`); absent
fields are left untouched by the merge. -/
structure UpsertInput where
  slug : Option String := none
  metaTitle : Option String := none
  metaDescription : Option String := none
  robots : Option String := none
  pageCategory : Option String := none
deriving DecidableEq, Repr

/-- The JSON envelope of the single-page write responses: `error` is the only
carrier of a failure reason in the handlers' responses. -/
structure PutResponse where
  success : Bool
  status : Nat
  error : Option String := none
  message : Option String := none
  record? : Option SEOPageRecord := none
  redirectCreated : Option Bool := none
deriving DecidableEq, Repr

/-- The guard `if (field) { security check }` of the handlers: the check runs
only on a supplied, truthy field, and blocks when the validator flags it. -/
def titleBlocked (secure : String → Bool) (o : Option String) : Bool :=
  match o with
  | some t => t != "" && !(secure t)
  | none => false

/-- `SEOPage.findOne({ siteId, slug, path: { $ne: path } })` as an existence
check: another record of the same site already holds the slug. -/
def slugConflictExists (store : Store) (siteId slug path : String) : Bool :=
  store.any (fun r => r.siteId == siteId && r.slug == slug && r.path != path)

/-- The guard `if (validatedData.slug) { uniqueness check }`. -/
def slugGuard (store : Store) (siteId path : String) (o : Option String) :
    Bool :=
  match o with
  | some s => s != "" && slugConflictExists store siteId s path
  | none => false

/-- Mongoose `save()` on a found-or-new document: replace the record with the
same key, or append a new one. -/
def saveRecord (store : Store) (r : SEOPageRecord) : Store :=
  if (findOne store r.siteId r.path).isSome then
    store.map (fun x =>
      if x.siteId == r.siteId && x.path == r.path then r else x)
  else store ++ [r]

/-- `Object.assign(seoPage, { ...validatedData, isCustom: true })`: supplied
fields overwrite, absent fields are kept. -/
def mergeRecord (r : SEOPageRecord) (input : UpsertInput) : SEOPageRecord :=
  { r with
    slug := input.slug.getD r.slug
    metaTitle := input.metaTitle.getD r.metaTitle
    metaDescription := input.metaDescription.getD r.metaDescription
    robots := input.robots.getD r.robots
    pageCategory := input.pageCategory.getD r.pageCategory
    isCustom := true }

/-- The record built by PUT for a page without an existing override: supplied
truthy fields win over the catalog defaults (`a || b` fallbacks). -/
def newRecordFromInput (siteId : String) (pp : PredefinedPage)
    (input : UpsertInput) : SEOPageRecord :=
  { siteId := siteId
    path := pp.path
    slug := jsOrOpt input.slug pp.defaultSlug
    metaTitle := jsOrOpt input.metaTitle pp.defaultTitle
    metaDescription := jsOrOpt input.metaDescription pp.defaultDescription
    robots := jsOrOpt input.robots "index,follow"
    pageCategory := jsOrOpt input.pageCategory pp.category
    isCustom := true }

/-- PUT `/api/admin/seo-pages/[path]` (route.ts lines 96-254) after path
decoding: catalog check, content-security checks, slug-uniqueness check,
merge-or-create, save, then non-fatal redirect creation on a slug change.
Returns the response together with the new record store and redirect store. -/
def putPage (secure : String → Bool) (store : Store) (rs : Redirects)
    (siteId path : String) (input : UpsertInput) :
    PutResponse × Store × Redirects :=
  match getPredefinedPageByPath path with
  | none =>
    ({ success := false, status := 404,
       error := some "Page not found in predefined pages" }, store, rs)
  | some pp =>
    if titleBlocked secure input.metaTitle then
      ({ success := false, status := 400,
         error := some "Meta title security validation failed" }, store, rs)
    else if titleBlocked secure input.metaDescription then
      ({ success := false, status := 400,
         error := some "Meta description security validation failed" },
        store, rs)
    else if slugGuard store siteId path input.slug then
      ({ success := false, status := 400,
         error := some "Slug already exists for another page" }, store, rs)
    else
      match findOne store siteId path with
      | some r0 =>
        let oldSlug : Option String :=
          match input.slug with
          | some s => if s != "" && r0.slug != s then some r0.slug else none
          | none => none
        let r1 := mergeRecord r0 input
        let store1 := saveRecord store r1
        match oldSlug, input.slug with
        | some o, some s =>
          if o != "" && s != "" && o != s then
            let rr := createRedirectSafely rs siteId o s 301
            ({ success := true, status := 200,
               message := some "SEO page updated successfully",
               record? := some r1, redirectCreated := some rr.1.success },
              store1, rr.2)
          else
            ({ success := true, status := 200,
               message := some "SEO page updated successfully",
               record? := some r1, redirectCreated := some false },
              store1, rs)
        | _, _ =>
          ({ success := true, status := 200,
             message := some "SEO page updated successfully",
             record? := some r1, redirectCreated := some false }, store1, rs)
      | none =>
        let r1 := newRecordFromInput siteId pp input
        ({ success := true, status := 200,
           message := some "SEO page created successfully",
           record? := some r1, redirectCreated := some false },
          saveRecord store r1, rs)

/-- The request body of POST `/api/admin/seo-pages` (`enhancedSeoPageSchema`):
path, slug, metaTitle and metaDescription are required there. -/
structure PostInput where
  path : String
  slug : String
  metaTitle : String
  metaDescription : String
  robots : Option String := none
  pageCategory : Option String := none
deriving DecidableEq, Repr

/-- POST `/api/admin/seo-pages` (the seo-pages collection route, lines
156-369): content-security first, then catalog check, slug-uniqueness check,
merge-or-create, save, and non-fatal redirect creation on a slug change.
The Mongoose schema default for `robots` on a new record is taken from the
spec (section 3: default "index,follow"); the new-record branch overrides
`pageCategory` with the catalog category, as the handler does. -/
def postPage (secure : String → Bool) (store : Store) (rs : Redirects)
    (siteId : String) (input : PostInput) :
    PutResponse × Store × Redirects :=
  if !(secure input.metaTitle) || !(secure input.metaDescription) then
    ({ success := false, status := 400,
       error := some "Content security validation failed" }, store, rs)
  else
    match getPredefinedPageByPath input.path with
    | none =>
      ({ success := false, status := 400,
         error := some "Invalid page path" }, store, rs)
    | some pp =>
      if slugConflictExists store siteId input.slug input.path then
        ({ success := false, status := 400,
           error := some "Slug already exists for another page" }, store, rs)
      else
        match findOne store siteId input.path with
        | some r0 =>
          let oldSlug : Option String :=
            if r0.slug != input.slug then some r0.slug else none
          let r1 : SEOPageRecord :=
            { r0 with
              slug := input.slug
              metaTitle := input.metaTitle
              metaDescription := input.metaDescription
              robots := input.robots.getD r0.robots
              pageCategory := input.pageCategory.getD r0.pageCategory
              isCustom := true }
          let store1 := saveRecord store r1
          match oldSlug with
          | some o =>
            if o != "" && o != input.slug then
              let rr := createRedirectSafely rs siteId o input.slug 301
              ({ success := true, status := 200,
                 message := some "SEO page updated successfully",
                 record? := some r1, redirectCreated := some rr.1.success },
                store1, rr.2)
            else
              ({ success := true, status := 200,
                 message := some "SEO page updated successfully",
                 record? := some r1, redirectCreated := some false },
                store1, rs)
          | none =>
            ({ success := true, status := 200,
               message := some "SEO page updated successfully",
               record? := some r1, redirectCreated := some false },
              store1, rs)
        | none =>
          let r1 : SEOPageRecord :=
            { siteId := siteId, path := input.path, slug := input.slug,
              metaTitle := input.metaTitle,
              metaDescription := input.metaDescription,
              robots := input.robots.getD "index,follow",
              pageCategory := pp.category, isCustom := true }
          ({ success := true, status := 200,
             message := some "SEO page created successfully",
             record? := some r1, redirectCreated := some false },
            saveRecord store r1, rs)

/-- The JSON envelope of the single-page DELETE (reset) response. -/
structure DeleteResponse where
  success : Bool
  status : Nat
  error : Option String := none
  message : Option String := none
deriving DecidableEq, Repr

/-- `SEOPage.findOneAndDelete({ siteId, path })`: the deleted record, if any,
and the store without it. -/
def deleteOne (store : Store) (siteId path : String) :
    Option SEOPageRecord × Store :=
  match findOne store siteId path with
  | none => (none, store)
  | some r =>
    (some r, store.eraseP (fun x => x.siteId == siteId && x.path == path))

/-- DELETE `/api/admin/seo-pages/[path]` (route.ts lines 257-314) after path
decoding: 404 when the path is not in the catalog or no override record
exists; otherwise the record is deleted.  The handler performs no cache
invalidation. -/
def deletePath (store : Store) (siteId path : String) :
    DeleteResponse × Store :=
  match getPredefinedPageByPath path with
  | none =>
    ({ success := false, status := 404,
       error := some "Page not found in predefined pages" }, store)
  | some _ =>
    match findOne store siteId path with
    | none =>
      ({ success := false, status := 404,
         error := some "No custom SEO data found for this page" }, store)
    | some _ =>
      ({ success := true, status := 200,
         message := some "SEO page reset to default values successfully" },
        store.eraseP (fun x => x.siteId == siteId && x.path == path))

/-! ## Cached listing (GET of the seo-pages collection route) -/

/-- The normalized listing query parameters (`seoPageQuerySchema`). -/
structure QueryParams where
  page : Nat
  limit : Nat
  search : Option String := none
  category : Option String := none
  isCustom : Option Bool := none
deriving DecidableEq, Repr

/-- A composed page view of the listing (collection route GET, lines 71-87);
the listing view carries no robots field. -/
structure ListPageView where
  path : String
  slug : String
  metaTitle : String
  metaDescription : String
  isCustom : Bool
  pageCategory : String
  hasCustomSeo : Bool
deriving DecidableEq, Repr

/-- The listing overlay of one catalog page onto its optional override. -/
def composeListView (store : Store) (siteId : String) (pp : PredefinedPage) :
    ListPageView :=
  let r? := findOne store siteId pp.path
  { path := pp.path
    slug := jsOrOpt (r?.map (fun r => r.slug)) pp.defaultSlug
    metaTitle := jsOrOpt (r?.map (fun r => r.metaTitle)) pp.defaultTitle
    metaDescription :=
      jsOrOpt (r?.map (fun r => r.metaDescription)) pp.defaultDescription
    isCustom := (r?.map (fun r => r.isCustom)).getD false
    pageCategory := jsOrOpt (r?.map (fun r => r.pageCategory)) pp.category
    hasCustomSeo := r?.isSome }

/-- The characters of a string, lowercased, for the case-insensitive search. -/
def lowerChars (s : String) : List Char := s.toList.map Char.toLower

/-- JavaScript `hay.includes(needle)` on character lists. -/
def containsSub (hay needle : List Char) : Bool :=
  match hay with
  | [] => needle.isEmpty
  | _ :: rest => needle.isPrefixOf hay || containsSub rest needle

/-- The search filter: case-insensitive substring match across path, title,
description and slug. -/
def matchesSearch (v : ListPageView) (searchLower : List Char) : Bool :=
  containsSub (lowerChars v.path) searchLower ||
  containsSub (lowerChars v.metaTitle) searchLower ||
  containsSub (lowerChars v.metaDescription) searchLower ||
  containsSub (lowerChars v.slug) searchLower

/-- The listing filters, applied in source order: search, category,
custom/default. -/
def applyFilters (q : QueryParams) (pages : List ListPageView) :
    List ListPageView :=
  let p1 :=
    match q.search with
    | some s =>
      if s != "" then pages.filter (fun v => matchesSearch v (lowerChars s))
      else pages
    | none => pages
  let p2 :=
    match q.category with
    | some c => if c != "" then p1.filter (fun v => v.pageCategory == c)
                else p1
    | none => p1
  match q.isCustom with
  | some b => p2.filter (fun v => v.isCustom == b)
  | none => p2

/-- Insertion into a path-sorted list (the `localeCompare` sort, paths being
unique). -/
def insertByPath (v : ListPageView) :
    List ListPageView → List ListPageView
  | [] => [v]
  | w :: ws =>
    if (compare v.path w.path).isLE then v :: w :: ws
    else w :: insertByPath v ws

/-- Sorting the filtered listing by path ascending. -/
def sortByPath (l : List ListPageView) : List ListPageView :=
  l.foldr insertByPath []

/-- The cached listing payload: the page slice plus the summary counts. -/
structure ListResult where
  pages : List ListPageView
  total : Nat
  totalPredefined : Nat
  customPages : Nat
  defaultPages : Nat
deriving DecidableEq, Repr

/-- The composed, filtered, sorted, paginated listing with its summary,
exactly the computation the collection route GET performs on a cache miss. -/
def computeList (store : Store) (q : QueryParams) (siteId : String) :
    ListResult :=
  let allPages := PREDEFINED_PAGES.map (composeListView store siteId)
  let sorted := sortByPath (applyFilters q allPages)
  let paginated := (sorted.drop ((q.page - 1) * q.limit)).take q.limit
  let custom :=
    (store.filter (fun r => r.siteId == siteId && r.isCustom)).length
  { pages := paginated
    total := sorted.length
    totalPredefined := PREDEFINED_PAGES.length
    customPages := custom
    defaultPages := PREDEFINED_PAGES.length - custom }

/-- A cache entry of the listing cache, keyed by site and normalized query,
with an expiry instant. -/
structure CacheEntry where
  siteId : String
  query : QueryParams
  value : ListResult
  expiresAt : Nat
deriving DecidableEq, Repr

/-- The listing cache. -/
abbrev Cache := List CacheEntry

/-- Modelled from the spec: `SEOCache` lives in `lib/seo-cache.ts`, which is
not among the sources.  Spec section 4.4: `Get` returns the entry for
`(siteId, queryHash)` unless expired. -/
def cacheGet (c : Cache) (siteId : String) (q : QueryParams) (now : Nat) :
    Option ListResult :=
  match c.find? (fun e =>
      e.siteId == siteId && e.query == q && decide (now < e.expiresAt)) with
  | some e => some e.value
  | none => none

/-- Modelled from the spec: `SEOCache.Put` stores the value under
`(siteId, queryHash)` with a fixed TTL. -/
def cachePut (c : Cache) (siteId : String) (q : QueryParams) (v : ListResult)
    (now ttl : Nat) : Cache :=
  { siteId := siteId, query := q, value := v, expiresAt := now + ttl } ::
    c.filter (fun e => !(e.siteId == siteId && e.query == q))

/-- GET `/api/admin/seo-pages` (collection route lines 26-153): serve a
non-expired cache entry unless bypassed, otherwise compute the listing and
cache it for 30 minutes (1800 seconds). -/
def listPages (store : Store) (cache : Cache) (siteId : String)
    (q : QueryParams) (bypass : Bool) (now : Nat) : ListResult × Cache :=
  if bypass = false then
    match cacheGet cache siteId q now with
    | some v => (v, cache)
    | none =>
      let v := computeList store q siteId
      (v, cachePut cache siteId q v now 1800)
  else
    let v := computeList store q siteId
    (v, cachePut cache siteId q v now 1800)

/-! ## Bulk operations (POST `/api/admin/seo-pages/bulk` and PUT of the
seo-pages collection route) -/

/-- A per-item result of a bulk operation, with the flags each case sets. -/
structure BulkItemResult where
  path : String
  success : Bool
  error : Option String := none
  action : Option String := none
  deleted : Option Bool := none
  hadCustomData : Option Bool := none
deriving DecidableEq, Repr

/-- The JSON envelope of a bulk response, with the per-item results and the
summary tallies. -/
structure BulkResponse where
  success : Bool
  status : Nat
  error : Option String := none
  results : List BulkItemResult := []
  total : Nat := 0
  successfulCount : Nat := 0
  failedCount : Nat := 0
deriving DecidableEq, Repr

/-- The shared `data` of a bulk update. -/
structure BulkData where
  metaTitle : Option String := none
  metaDescription : Option String := none
  robots : Option String := none
  pageCategory : Option String := none
deriving DecidableEq, Repr

/-- `Object.assign(seoPage, { ...data, isCustom: true })` of the bulk update:
supplied fields overwrite, absent fields are kept. -/
def mergeBulkData (r : SEOPageRecord) (d : BulkData) : SEOPageRecord :=
  { r with
    metaTitle := d.metaTitle.getD r.metaTitle
    metaDescription := d.metaDescription.getD r.metaDescription
    robots := d.robots.getD r.robots
    pageCategory := d.pageCategory.getD r.pageCategory
    isCustom := true }

/-- The record the bulk update creates for a page without an override: the
default slug, and `data || default` fallbacks for the other fields. -/
def newBulkRecord (siteId : String) (pp : PredefinedPage) (d : BulkData) :
    SEOPageRecord :=
  { siteId := siteId
    path := pp.path
    slug := pp.defaultSlug
    metaTitle := jsOrOpt d.metaTitle pp.defaultTitle
    metaDescription := jsOrOpt d.metaDescription pp.defaultDescription
    robots := jsOrOpt d.robots "index,follow"
    pageCategory := jsOrOpt d.pageCategory pp.category
    isCustom := true }

/-- One step of the bulk update loop: merge or create and save, reporting
success; a missing catalog entry surfaces as a caught per-item error. -/
def bulkUpdateStep (siteId : String) (d : BulkData)
    (acc : List BulkItemResult × Store) (path : String) :
    List BulkItemResult × Store :=
  match getPredefinedPageByPath path with
  | none =>
    (acc.1 ++ [{ path := path, success := false,
                 error := some "Invalid page path" }], acc.2)
  | some pp =>
    match findOne acc.2 siteId path with
    | some r0 =>
      (acc.1 ++ [{ path := path, success := true, action := some "updated" }],
        saveRecord acc.2 (mergeBulkData r0 d))
    | none =>
      (acc.1 ++ [{ path := path, success := true, action := some "updated" }],
        saveRecord acc.2 (newBulkRecord siteId pp d))

/-- The `update` case of POST `/api/admin/seo-pages/bulk` (bulk/route.ts
lines 50-125): content-security checks on the shared data, up-front catalog
validation of every path, then the per-path loop.  The summary counts
successes and failures over the per-item results. -/
def bulkUpdatePOST (secure : String → Bool) (store : Store)
    (siteId : String) (paths : List String) (d : BulkData) :
    BulkResponse × Store :=
  if titleBlocked secure d.metaTitle then
    ({ success := false, status := 400,
       error := some "Meta title security validation failed" }, store)
  else if titleBlocked secure d.metaDescription then
    ({ success := false, status := 400,
       error := some "Meta description security validation failed" }, store)
  else if (paths.filter
      (fun p => (getPredefinedPageByPath p).isNone)).length > 0 then
    ({ success := false, status := 400, error := some "Invalid paths" }, store)
  else
    let res := paths.foldl (bulkUpdateStep siteId d) ([], store)
    let ok := (res.1.filter (fun r => r.success)).length
    ({ success := true, status := 200, results := res.1,
       total := res.1.length, successfulCount := ok,
       failedCount := res.1.length - ok }, res.2)

/-- The `delete` case of POST `/api/admin/seo-pages/bulk` (lines 127-148):
no catalog validation; each path is deleted if present and reported
`success: true` with a `deleted` flag. -/
def bulkDeletePOST (store : Store) (siteId : String) (paths : List String) :
    BulkResponse × Store :=
  let step := fun (acc : List BulkItemResult × Store) (path : String) =>
    let del := deleteOne acc.2 siteId path
    (acc.1 ++ [{ path := path, success := true, action := some "deleted",
                 deleted := some del.1.isSome }], del.2)
  let res := paths.foldl step ([], store)
  let ok := (res.1.filter (fun r => r.success)).length
  ({ success := true, status := 200, results := res.1, total := res.1.length,
     successfulCount := ok, failedCount := res.1.length - ok }, res.2)

/-- The `reset` case of POST `/api/admin/seo-pages/bulk` (lines 150-171):
no catalog validation; each path is deleted if present and reported
`success: true` with a `hadCustomData` flag. -/
def bulkResetPOST (store : Store) (siteId : String) (paths : List String) :
    BulkResponse × Store :=
  let step := fun (acc : List BulkItemResult × Store) (path : String) =>
    let del := deleteOne acc.2 siteId path
    (acc.1 ++ [{ path := path, success := true, action := some "reset",
                 hadCustomData := some del.1.isSome }], del.2)
  let res := paths.foldl step ([], store)
  let ok := (res.1.filter (fun r => r.success)).length
  ({ success := true, status := 200, results := res.1, total := res.1.length,
     successfulCount := ok, failedCount := res.1.length - ok }, res.2)

/-- An item of a bulk import. -/
structure ImportItem where
  path : String
  metaTitle : Option String := none
  metaDescription : Option String := none
  robots : Option String := none
  pageCategory : Option String := none
deriving DecidableEq, Repr

/-- The up-front content-security sweep of the bulk import (bulk/route.ts
lines 246-274): the whole import is rejected when any supplied truthy field
is flagged. -/
def importSecurityBlocked (secure : String → Bool) (items : List ImportItem) :
    Bool :=
  items.any (fun it =>
    titleBlocked secure it.metaTitle ||
    titleBlocked secure it.metaDescription)

/-- One step of the import loop: an item with a path outside the catalog is
reported as a failure and processing continues; a valid item is merged over
the existing record (`item || current` fallbacks) or created over the
catalog defaults. -/
def importStep (siteId : String) (acc : List BulkItemResult × Store)
    (it : ImportItem) : List BulkItemResult × Store :=
  match getPredefinedPageByPath it.path with
  | none =>
    (acc.1 ++ [{ path := it.path, success := false,
                 error := some "Invalid page path" }], acc.2)
  | some pp =>
    match findOne acc.2 siteId it.path with
    | some r0 =>
      let r1 : SEOPageRecord :=
        { r0 with
          metaTitle := jsOrOpt it.metaTitle r0.metaTitle
          metaDescription := jsOrOpt it.metaDescription r0.metaDescription
          robots := jsOrOpt it.robots r0.robots
          pageCategory := jsOrOpt it.pageCategory r0.pageCategory
          isCustom := true }
      (acc.1 ++ [{ path := it.path, success := true,
                   action := some "imported" }], saveRecord acc.2 r1)
    | none =>
      let r1 : SEOPageRecord :=
        { siteId := siteId, path := it.path, slug := pp.defaultSlug,
          metaTitle := jsOrOpt it.metaTitle pp.defaultTitle,
          metaDescription := jsOrOpt it.metaDescription pp.defaultDescription,
          robots := jsOrOpt it.robots "index,follow",
          pageCategory := jsOrOpt it.pageCategory pp.category,
          isCustom := true }
      (acc.1 ++ [{ path := it.path, success := true,
                   action := some "imported" }], saveRecord acc.2 r1)

/-- The `import` case of POST `/api/admin/seo-pages/bulk` (lines 237-327):
empty-data check, the security sweep, then the per-item loop that never
aborts early; the summary counts over the per-item results. -/
def bulkImportPOST (secure : String → Bool) (store : Store)
    (siteId : String) (items : List ImportItem) : BulkResponse × Store :=
  if items.length = 0 then
    ({ success := false, status := 400,
       error := some "Import data is required for import operation" }, store)
  else if importSecurityBlocked secure items then
    ({ success := false, status := 400,
       error := some "Import security validation failed" }, store)
  else
    let res := items.foldl (importStep siteId) ([], store)
    let ok := (res.1.filter (fun r => r.success)).length
    ({ success := true, status := 200, results := res.1,
       total := res.1.length, successfulCount := ok,
       failedCount := res.1.length - ok }, res.2)

/-- The operations of the bulk PUT of the seo-pages collection route. -/
inductive BulkOp
  | update
  | delete
  | reset
  | export
  | imp
deriving DecidableEq, Repr

/-- PUT `/api/admin/seo-pages` (collection route lines 372-630): every
supplied path is validated against the catalog before the operation switch,
for all operations; the update, delete, reset and import loops match the
bulk endpoint's, and the summary total is the number of supplied paths. -/
def bulkPUT (store : Store) (siteId : String) (op : BulkOp)
    (paths : List String) (d : Option BulkData) (items : List ImportItem) :
    BulkResponse × Store :=
  if (paths.filter
      (fun p => (getPredefinedPageByPath p).isNone)).length > 0 then
    ({ success := false, status := 400, error := some "Invalid paths" }, store)
  else
    match op with
    | .update =>
      match d with
      | none =>
        ({ success := false, status := 400,
           error := some "Data is required for update operation" }, store)
      | some d0 =>
        let res := paths.foldl (bulkUpdateStep siteId d0) ([], store)
        let ok := (res.1.filter (fun r => r.success)).length
        ({ success := true, status := 200, results := res.1,
           total := paths.length, successfulCount := ok,
           failedCount := res.1.length - ok }, res.2)
    | .delete =>
      let step := fun (acc : List BulkItemResult × Store) (path : String) =>
        let del := deleteOne acc.2 siteId path
        (acc.1 ++ [{ path := path, success := true,
                     deleted := some del.1.isSome }], del.2)
      let res := paths.foldl step ([], store)
      let ok := (res.1.filter (fun r => r.success)).length
      ({ success := true, status := 200, results := res.1,
         total := paths.length, successfulCount := ok,
         failedCount := res.1.length - ok }, res.2)
    | .reset =>
      let step := fun (acc : List BulkItemResult × Store) (path : String) =>
        let del := deleteOne acc.2 siteId path
        (acc.1 ++ [{ path := path, success := true,
                     hadCustomData := some del.1.isSome }], del.2)
      let res := paths.foldl step ([], store)
      let ok := (res.1.filter (fun r => r.success)).length
      ({ success := true, status := 200, results := res.1,
         total := paths.length, successfulCount := ok,
         failedCount := res.1.length - ok }, res.2)
    | .export => ({ success := true, status := 200 }, store)
    | .imp =>
      if items.length = 0 then
        ({ success := false, status := 400,
           error := some "Import data is required for import operation" },
          store)
      else
        let res := items.foldl (importStep siteId) ([], store)
        let ok := (res.1.filter (fun r => r.success)).length
        ({ success := true, status := 200, results := res.1,
           total := paths.length, successfulCount := ok,
           failedCount := res.1.length - ok }, res.2)

/-! ## Specification-facing predicates used by the claim statements -/

/-- The amended overlay property of a composed view: record existence is
reported in `hasCustomSeo`, `isCustom` is the stored flag, and each field is
the stored value when non-empty, the catalog default otherwise. -/
def OverlayOK (pp : PredefinedPage) (r? : Option SEOPageRecord)
    (v : PageView) : Prop :=
  v.hasCustomSeo = r?.isSome ∧
  v.isCustom = (r?.map SEOPageRecord.isCustom).getD false ∧
  (r? = none →
    v.slug = pp.defaultSlug ∧ v.metaTitle = pp.defaultTitle ∧
    v.metaDescription = pp.defaultDescription ∧
    v.robots = "index,follow" ∧ v.pageCategory = pp.category) ∧
  (∀ r, r? = some r →
    v.slug = jsOr r.slug pp.defaultSlug ∧
    v.metaTitle = jsOr r.metaTitle pp.defaultTitle ∧
    v.metaDescription = jsOr r.metaDescription pp.defaultDescription ∧
    v.robots = jsOr r.robots "index,follow" ∧
    v.pageCategory = jsOr r.pageCategory pp.category)

/-- The store invariant the persistence layer's unique index maintains:
within a site, a slug belongs to at most one path. -/
def SlugUniquePerSite (store : Store) : Prop :=
  ∀ r1 ∈ store, ∀ r2 ∈ store,
    r1.siteId = r2.siteId → r1.slug = r2.slug → r1.path = r2.path

/-- The per-item result the import loop reports for an item, which depends
only on whether the item's path is in the catalog. -/
def importItemResult (it : ImportItem) : BulkItemResult :=
  match getPredefinedPageByPath it.path with
  | none =>
    { path := it.path, success := false, error := some "Invalid page path" }
  | some _ =>
    { path := it.path, success := true, action := some "imported" }

/-! ## Concrete fixtures -/

/-- The default site id of every handler. -/
def siteA : String := "altiorainfotech"

/-- A site id for redirect scenarios. -/
def siteS : String := "s"

/-- The catalog's home-page entry, as stored in PREDEFINED_PAGES. -/
def ppRoot : PredefinedPage :=
  { path := "/",
    defaultSlug := "home",
    category := "main",
    defaultTitle := "Altiora Infotech - AI, Web3 & Growth Engineering Solutions",
    defaultDescription := "Leading AI, Web3, and growth engineering solutions for modern businesses. Transform your digital presence with cutting-edge technology." }

/-- The catalog's about-page entry, as stored in PREDEFINED_PAGES. -/
def ppAbout : PredefinedPage :=
  { path := "/about",
    defaultSlug := "about-us",
    category := "about",
    defaultTitle := "About Altiora Infotech - Innovation & Excellence",
    defaultDescription := "Learn about Altiora Infotech's mission to deliver innovative AI, Web3, and growth engineering solutions for businesses worldwide." }

/-- A stored override record for the about page holding its default slug. -/
def recAbout : SEOPageRecord :=
  { siteId := siteA, path := "/about", slug := "about-us",
    metaTitle := "About", metaDescription := "About the company",
    robots := "index,follow", pageCategory := "about", isCustom := true }

/-- A stored override record for the careers page. -/
def recCareers : SEOPageRecord :=
  { siteId := siteA, path := "/careers", slug := "careers",
    metaTitle := "Careers", metaDescription := "Careers page",
    robots := "index,follow", pageCategory := "other", isCustom := true }

/-- A content-security validator that accepts everything. -/
def secAll : String → Bool := fun _ => true

/-- A redirect of the fixture site. -/
def mkRedirectS (f t : String) : RedirectRecord :=
  { siteId := siteS, fromPath := f, toPath := t, statusCode := 301 }

/-- Four stored redirects forming the chain a - b - c - d - e. -/
def rsChain4 : Redirects :=
  [mkRedirectS "a" "b", mkRedirectS "b" "c", mkRedirectS "c" "d",
   mkRedirectS "d" "e"]

/-- A stored redirect from the prospective new slug back to the old slug. -/
def rsNewOld : Redirects :=
  [{ siteId := siteA, fromPath := "about-us-new", toPath := "about-us",
     statusCode := 301 }]

/-- The redirect the C8 witness creates. -/
def rAB : RedirectRecord :=
  { siteId := siteS, fromPath := "a", toPath := "b", statusCode := 301 }

/-- The listing query of the stale-cache scenario. -/
def c4Query : QueryParams := { page := 1, limit := 1 }

/-- The store before the reset: one custom record for the about page. -/
def c4Store0 : Store := [recAbout]

/-- The first listing call, on an empty cache at time 0. -/
def c4First : ListResult × Cache :=
  listPages c4Store0 [] siteA c4Query false 0

/-- The store after DELETE resets the about page (the handler touches no
cache). -/
def c4Store1 : Store := (deletePath c4Store0 siteA "/about").2

/-- The second listing call, shortly after the reset, against the unchanged
cache. -/
def c4Second : ListResult × Cache :=
  listPages c4Store1 c4First.2 siteA c4Query false 10

/-- The slug-changing update of the C5 scenario. -/
def c5Input : UpsertInput := { slug := some "about-us-new" }

/-- The PUT of the C5 scenario: the slug change triggers a redirect that
would close a loop, so redirect creation fails. -/
def c5Out : PutResponse × Store × Redirects :=
  putPage secAll [recAbout] rsNewOld siteA "/about" c5Input

/-- An import batch of three items of which exactly the middle one has a
path outside the catalog. -/
def c7Items : List ImportItem :=
  [{ path := "/careers", metaTitle := some "Open roles" },
   { path := "/bogus" }, { path := "/about" }]

/-! ## Counterexamples and the evaluated cache bug -/

/-- C1 counterexample: after seeding, an override record exists for the home
page, yet GET returns `isCustom = false` — the stored flag, not record
existence — so "isCustom is true iff an override record exists" fails. -/
theorem C1_is_custom_counterexample :
    (findOne [seedRecord siteA ppRoot] siteA "/").isSome = true ∧
    (getPage [seedRecord siteA ppRoot] siteA "/").map
      PageView.isCustom = some false := by
  decide

/-- C4 evaluated at the failing input: the reset succeeds and empties the
store, yet the next listing within the TTL returns the cached pre-reset
view, which differs from the view composed from the post-reset store — a
stale cache window, contradicting the claim. -/
theorem C4_stale_cache_after_reset :
    (deletePath c4Store0 siteA "/about").1.success = true ∧
    c4Store1 = [] ∧
    c4Second.1 = c4First.1 ∧
    c4Second.1 ≠ computeList c4Store1 c4Query siteA := by
  decide

/-- C6 counterexample: a bulk delete through the bulk endpoint with a path
outside the catalog does not fail with an invalid-path error — it reports
overall success and still deletes the record of the valid sibling path. -/
theorem C6_delete_no_validation_counterexample :
    getPredefinedPageByPath "/bogus" = none ∧
    (bulkDeletePOST [recAbout] siteA ["/bogus", "/about"]).1.success = true ∧
    (bulkDeletePOST [recAbout] siteA ["/bogus", "/about"]).1.error = none ∧
    (bulkDeletePOST [recAbout] siteA ["/bogus", "/about"]).2 = [] := by
  decide

/-- C5 counterexample: the update succeeds and commits the new slug, the
response carries `redirectCreated = some false` — but its `error` field, the
response's only reason carrier, is `none`: no reason for the redirect
failure is reported back, contradicting "together with a reason". -/
theorem C5_no_reason_counterexample :
    c5Out.1.success = true ∧
    c5Out.1.redirectCreated = some false ∧
    c5Out.1.error = none ∧
    (findOne c5Out.2.1 siteA "/about").map SEOPageRecord.slug =
      some "about-us-new" ∧
    c5Out.2.2 = rsNewOld := by
  decide

/-- C3 counterexample: with the chain a - b - c - d - e stored, the safe
creator accepts the redirect e - f (its forward walk from f sees nothing),
although the addition makes the chain starting at a five redirects long —
an addition making a chain of length at least 5 is not rejected for all
starting points. -/
theorem C3_chain_counterexample :
    (createRedirectSafely rsChain4 siteS "e" "f" 301).1.success = true ∧
    chainLenFrom (createRedirectSafely rsChain4 siteS "e" "f" 301).2
      siteS 10 "a" = 5 := by
  decide

/-! ## C1: the amended overlay theorem -/

/-- C1 (amended): for every catalog path, GET returns the composed view in
which `hasCustomSeo` reports record existence, `isCustom` is the stored
record's flag (false without a record), and every field is the override
value when the stored field is non-empty and the catalog default otherwise. -/
theorem C1_get_page_overlay (store : Store) (siteId path : String)
    (pp : PredefinedPage)
    (hpp : getPredefinedPageByPath path = some pp) :
    getPage store siteId path =
      some (composeView pp (findOne store siteId path)) ∧
    OverlayOK pp (findOne store siteId path)
      (composeView pp (findOne store siteId path)) := by
  constructor
  · unfold getPage
    rw [hpp]
  · cases h : findOne store siteId path with
    | none => simp [OverlayOK, composeView, jsOrOpt]
    | some r => simp [OverlayOK, composeView, jsOrOpt]

/-- C1 witness: the overlay theorem applied to the home page over the
empty store. -/
theorem C1_get_page_overlay_witness :
    getPredefinedPageByPath "/" = some ppRoot ∧
    (getPage [] siteA "/" =
      some (composeView ppRoot (findOne [] siteA "/")) ∧
     OverlayOK ppRoot (findOne [] siteA "/")
       (composeView ppRoot (findOne [] siteA "/"))) :=
  ⟨by decide, C1_get_page_overlay [] siteA "/" ppRoot (by decide)⟩

/-! ## C10: reset signaling -/

/-- C10: on a path with no override record, the bulk delete and reset report
the item successful with `deleted`/`hadCustomData` false and leave the store
unchanged, while the single-page DELETE fails with the 404 not-found
response. -/
theorem C10_reset_signaling (store : Store) (siteId path : String)
    (pp : PredefinedPage)
    (hpp : getPredefinedPageByPath path = some pp)
    (hnone : findOne store siteId path = none) :
    bulkDeletePOST store siteId [path] =
      ({ success := true, status := 200,
         results := [{ path := path, success := true,
                       action := some "deleted", deleted := some false }],
         total := 1, successfulCount := 1, failedCount := 0 }, store) ∧
    bulkResetPOST store siteId [path] =
      ({ success := true, status := 200,
         results := [{ path := path, success := true, action := some "reset",
                       hadCustomData := some false }],
         total := 1, successfulCount := 1, failedCount := 0 }, store) ∧
    deletePath store siteId path =
      ({ success := false, status := 404,
         error := some "No custom SEO data found for this page" }, store) := by
  refine ⟨?_, ?_, ?_⟩
  · simp [bulkDeletePOST, deleteOne, hnone]
  · simp [bulkResetPOST, deleteOne, hnone]
  · unfold deletePath
    rw [hpp, hnone]

/-- C10 witness: the signaling theorem at the about page and the empty
store. -/
theorem C10_reset_signaling_witness :
    (getPredefinedPageByPath "/about" = some ppAbout ∧
     findOne [] siteA "/about" = none) ∧
    (bulkDeletePOST [] siteA ["/about"] =
      ({ success := true, status := 200,
         results := [{ path := "/about", success := true,
                       action := some "deleted", deleted := some false }],
         total := 1, successfulCount := 1, failedCount := 0 }, []) ∧
     bulkResetPOST [] siteA ["/about"] =
      ({ success := true, status := 200,
         results := [{ path := "/about", success := true,
                       action := some "reset", hadCustomData := some false }],
         total := 1, successfulCount := 1, failedCount := 0 }, []) ∧
     deletePath [] siteA "/about" =
      ({ success := false, status := 404,
         error := some "No custom SEO data found for this page" }, [])) :=
  ⟨⟨by decide, by decide⟩,
    C10_reset_signaling [] siteA "/about" ppAbout
      (by decide) (by decide)⟩

/-! ## C8: redirect creation persists nothing before its checks pass -/

/-- C8: the redirect-creation endpoint either returns `created r` having
appended exactly the one new redirect built from its arguments, or fails and
leaves the redirect store exactly as it was; no state is mutated before the
existing-redirect, loop and chain-length checks complete. -/
theorem C8_redirect_persistence (secure : String → Bool) (rs : Redirects)
    (siteId f t : String) (c : Nat) (out : RedirectOutcome) (rs2 : Redirects)
    (h : redirectsPOST secure rs siteId f t c = (out, rs2)) :
    (∃ r, out = RedirectOutcome.created r ∧
      r = { siteId := siteId, fromPath := f, toPath := t, statusCode := c } ∧
      rs2 = rs ++ [r]) ∨
    (rs2 = rs ∧ ∀ r, out ≠ RedirectOutcome.created r) := by
  unfold redirectsPOST at h
  split at h
  · cases h
    exact Or.inr ⟨rfl, fun r hr => by cases hr⟩
  · split at h
    · cases h
      exact Or.inr ⟨rfl, fun r hr => by cases hr⟩
    · dsimp only at h
      split at h
      · cases h
        exact Or.inr ⟨rfl, fun r hr => by cases hr⟩
      · split at h
        · cases h
          exact Or.inr ⟨rfl, fun r hr => by cases hr⟩
        · cases h
          exact Or.inl ⟨_, rfl, rfl, rfl⟩

/-- C8 witness: creating a redirect in an empty store appends exactly that
redirect. -/
theorem C8_redirect_persistence_witness :
    (∃ r, RedirectOutcome.created rAB = RedirectOutcome.created r ∧
      r = { siteId := siteS, fromPath := "a", toPath := "b",
            statusCode := 301 } ∧
      ([rAB] : Redirects) = [] ++ [r]) ∨
    (([rAB] : Redirects) = [] ∧
      ∀ r, RedirectOutcome.created rAB ≠ RedirectOutcome.created r) :=
  C8_redirect_persistence secAll [] siteS "a" "b" 301
    (RedirectOutcome.created rAB) [rAB] (by decide)

/-! ## C2: slug uniqueness -/

/-- A record found by key lookup is a member with the matching key. -/
theorem findOne_mem_eq {store : Store} {siteId path : String}
    {r0 : SEOPageRecord} (h : findOne store siteId path = some r0) :
    r0 ∈ store ∧ r0.siteId = siteId ∧ r0.path = path := by
  have hmem := List.mem_of_find?_eq_some h
  have hp := List.find?_some h
  simp only [Bool.and_eq_true, beq_iff_eq] at hp
  exact ⟨hmem, hp.1, hp.2⟩

/-- The application-level conflict check finds exactly the records of the
same site holding the slug under a different path. -/
theorem slugConflictExists_iff {store : Store} {siteId s path : String} :
    slugConflictExists store siteId s path = true ↔
    ∃ r ∈ store, r.siteId = siteId ∧ r.slug = s ∧ r.path ≠ path := by
  unfold slugConflictExists
  simp [List.any_eq_true, Bool.and_eq_true, beq_iff_eq, bne_iff_ne,
    and_assoc]

/-- Under the slug-uniqueness invariant, a page's own current slug triggers
no conflict. -/
theorem own_slug_no_conflict {store : Store} {siteId path : String}
    {r0 : SEOPageRecord} (hu : SlugUniquePerSite store)
    (hf : findOne store siteId path = some r0) :
    slugConflictExists store siteId r0.slug path = false := by
  by_contra hc
  rw [Bool.not_eq_false] at hc
  obtain ⟨r, hr, hsid, hslug, hne⟩ := slugConflictExists_iff.mp hc
  obtain ⟨hm, hsid0, hpath0⟩ := findOne_mem_eq hf
  exact hne (by rw [hu r hr r0 hm (by rw [hsid, hsid0]) hslug, hpath0])

/-- C2: supplying a slug already held by a different path of the same site
makes PUT and POST fail with the slug-conflict response, persisting nothing;
and under the store's slug-uniqueness invariant, supplying the page's own
current slug never fails the request. -/
theorem C2_slug_conflict :
    (∀ (secure : String → Bool) (store : Store) (rs : Redirects)
       (siteId path : String) (input : UpsertInput) (s : String)
       (pp : PredefinedPage),
      getPredefinedPageByPath path = some pp →
      titleBlocked secure input.metaTitle = false →
      titleBlocked secure input.metaDescription = false →
      input.slug = some s → s ≠ "" →
      (∃ r ∈ store, r.siteId = siteId ∧ r.slug = s ∧ r.path ≠ path) →
      putPage secure store rs siteId path input =
        ({ success := false, status := 400,
           error := some "Slug already exists for another page" },
          store, rs)) ∧
    (∀ (secure : String → Bool) (store : Store) (rs : Redirects)
       (siteId path : String) (input : UpsertInput) (r0 : SEOPageRecord)
       (pp : PredefinedPage),
      SlugUniquePerSite store →
      getPredefinedPageByPath path = some pp →
      titleBlocked secure input.metaTitle = false →
      titleBlocked secure input.metaDescription = false →
      findOne store siteId path = some r0 →
      input.slug = some r0.slug →
      (putPage secure store rs siteId path input).1.success = true) ∧
    (∀ (secure : String → Bool) (store : Store) (rs : Redirects)
       (siteId : String) (input : PostInput) (pp : PredefinedPage),
      secure input.metaTitle = true → secure input.metaDescription = true →
      getPredefinedPageByPath input.path = some pp →
      (∃ r ∈ store, r.siteId = siteId ∧ r.slug = input.slug ∧
        r.path ≠ input.path) →
      postPage secure store rs siteId input =
        ({ success := false, status := 400,
           error := some "Slug already exists for another page" },
          store, rs)) ∧
    (∀ (secure : String → Bool) (store : Store) (rs : Redirects)
       (siteId : String) (input : PostInput) (r0 : SEOPageRecord)
       (pp : PredefinedPage),
      SlugUniquePerSite store →
      secure input.metaTitle = true → secure input.metaDescription = true →
      getPredefinedPageByPath input.path = some pp →
      findOne store siteId input.path = some r0 →
      input.slug = r0.slug →
      (postPage secure store rs siteId input).1.success = true) := by
  refine ⟨?_, ?_, ?_, ?_⟩
  · intro secure store rs siteId path input s pp hpp ht hd hs hne hex
    have hconf : slugConflictExists store siteId s path = true :=
      slugConflictExists_iff.mpr hex
    have hguard : slugGuard store siteId path input.slug = true := by
      rw [hs]
      simp [slugGuard, hconf, bne_iff_ne, hne]
    unfold putPage
    rw [hpp]
    simp only [ht, hd, hguard, Bool.false_eq_true, if_false, if_true]
  · intro secure store rs siteId path input r0 pp hu hpp ht hd hf hs
    have hconf := own_slug_no_conflict hu hf
    have hguard : slugGuard store siteId path input.slug = false := by
      rw [hs]
      simp [slugGuard, hconf]
    unfold putPage
    rw [hpp]
    simp only [ht, hd, hguard, Bool.false_eq_true, if_false]
    rw [hf, hs]
    simp only [bne_self_eq_false, Bool.and_false, Bool.false_eq_true,
      if_false]
  · intro secure store rs siteId input pp ht hd hpp hex
    have hconf : slugConflictExists store siteId input.slug input.path =
        true := slugConflictExists_iff.mpr hex
    unfold postPage
    rw [hpp]
    simp only [ht, hd, hconf, Bool.not_true, Bool.or_self,
      Bool.false_eq_true, if_false, if_true]
  · intro secure store rs siteId input r0 pp hu ht hd hpp hf hs
    have hconf : slugConflictExists store siteId input.slug input.path =
        false := by
      rw [hs]
      exact own_slug_no_conflict hu hf
    unfold postPage
    rw [hpp]
    simp only [ht, hd, hconf, Bool.not_true, Bool.or_self,
      Bool.false_eq_true, if_false]
    rw [hf, hs]
    simp only [bne_self_eq_false, Bool.false_eq_true, if_false]

/-- C2 witness: a conflicting slug from a different path is rejected with
the store untouched. -/
theorem C2_slug_conflict_witness :
    (getPredefinedPageByPath "/about" = some ppAbout ∧
     titleBlocked secAll c5Input.metaTitle = false ∧
     c5Input.slug = some "about-us-new" ∧
     (∃ r ∈ [{ recCareers with slug := "about-us-new" }],
       r.siteId = siteA ∧ r.slug = "about-us-new" ∧ r.path ≠ "/about")) ∧
    putPage secAll [{ recCareers with slug := "about-us-new" }]
        [] siteA "/about" c5Input =
      ({ success := false, status := 400,
         error := some "Slug already exists for another page" },
        [{ recCareers with slug := "about-us-new" }], []) :=
  ⟨⟨by decide, by decide, by decide,
    ⟨{ recCareers with slug := "about-us-new" }, by decide,
      by decide, by decide, by decide⟩⟩,
   C2_slug_conflict.1 secAll [{ recCareers with slug := "about-us-new" }]
     [] siteA "/about" c5Input "about-us-new" ppAbout
     (by decide) (by decide) (by decide) (by decide) (by decide)
     ⟨{ recCareers with slug := "about-us-new" }, by decide,
       by decide, by decide, by decide⟩⟩

/-! ## C7: import fault isolation -/

/-- One import step appends exactly the item's per-item result, whatever the
store. -/
theorem importStep_result (siteId : String) (acc : List BulkItemResult)
    (store : Store) (it : ImportItem) :
    ∃ st2, importStep siteId (acc, store) it =
      (acc ++ [importItemResult it], st2) := by
  unfold importStep importItemResult
  cases hpp : getPredefinedPageByPath it.path with
  | none => exact ⟨store, rfl⟩
  | some pp =>
    cases hf : findOne store siteId it.path with
    | some r0 => exact ⟨_, rfl⟩
    | none => exact ⟨_, rfl⟩

/-- The import loop reports exactly one result per supplied item, in
order. -/
theorem importFold_results (siteId : String) :
    ∀ (items : List ImportItem) (acc : List BulkItemResult) (store : Store),
    (items.foldl (importStep siteId) (acc, store)).1 =
      acc ++ items.map importItemResult := by
  intro items
  induction items with
  | nil => intro acc store; simp
  | cons it rest ih =>
    intro acc store
    obtain ⟨st2, hstep⟩ := importStep_result siteId acc store it
    simp only [List.foldl_cons, List.map_cons, hstep, ih]
    simp

/-- An item's reported success is catalog membership of its path. -/
theorem importItemResult_success (it : ImportItem) :
    (importItemResult it).success =
      (getPredefinedPageByPath it.path).isSome := by
  unfold importItemResult
  cases getPredefinedPageByPath it.path <;> rfl

/-- A failed import item carries the invalid-path error. -/
theorem importItemResult_error (it : ImportItem)
    (h : (importItemResult it).success = false) :
    (importItemResult it).error = some "Invalid page path" := by
  unfold importItemResult at h ⊢
  cases hpp : getPredefinedPageByPath it.path with
  | none => rfl
  | some pp => rw [hpp] at h; simp at h

/-- The sum of the matching and non-matching counts is the length. -/
theorem countP_add_countP_not {a : Type} (l : List a) (p : a → Bool) :
    l.countP p + l.countP (fun x => !p x) = l.length := by
  induction l with
  | nil => simp
  | cons x t ih => by_cases h : p x = true <;> simp [List.countP_cons, h] <;> omega

/-- The import endpoint, past its guards, reports the mapped per-item
results with the matching tallies. -/
theorem bulkImportPOST_eq (secure : String → Bool) (store : Store)
    (siteId : String) (items : List ImportItem)
    (hsec : importSecurityBlocked secure items = false)
    (hlen : ¬ items.length = 0) :
    bulkImportPOST secure store siteId items =
      ({ success := true, status := 200,
         results := items.map importItemResult,
         total := (items.map importItemResult).length,
         successfulCount := ((items.map importItemResult).filter
           (fun r => r.success)).length,
         failedCount := (items.map importItemResult).length -
           ((items.map importItemResult).filter
             (fun r => r.success)).length },
       (items.foldl (importStep siteId) ([], store)).2) := by
  unfold bulkImportPOST
  rw [if_neg hlen]
  simp only [hsec, Bool.false_eq_true, if_false]
  rw [importFold_results]
  simp

/-- C7: an import batch in which exactly one item's path is outside the
catalog completes without aborting: one result per item, one reported
failure carrying its error, and a summary of one failure and all other
items successful. -/
theorem C7_import_fault_isolation (secure : String → Bool) (store : Store)
    (siteId : String) (items : List ImportItem)
    (hsec : importSecurityBlocked secure items = false)
    (hone : items.countP
      (fun it => !(getPredefinedPageByPath it.path).isSome) = 1) :
    (bulkImportPOST secure store siteId items).1.success = true ∧
    (bulkImportPOST secure store siteId items).1.results.length =
      items.length ∧
    (bulkImportPOST secure store siteId items).1.successfulCount =
      items.length - 1 ∧
    (bulkImportPOST secure store siteId items).1.failedCount = 1 ∧
    (∀ r ∈ (bulkImportPOST secure store siteId items).1.results,
      r.success = false → r.error = some "Invalid page path") := by
  have hsplit := countP_add_countP_not items
    (fun it => (getPredefinedPageByPath it.path).isSome)
  rw [hone] at hsplit
  have hlen : ¬ items.length = 0 := by omega
  have hcount : ((items.map importItemResult).filter
      (fun r => r.success)).length =
      items.countP
        (fun it => (getPredefinedPageByPath it.path).isSome) := by
    rw [← List.countP_eq_length_filter, List.countP_map]
    exact List.countP_congr (fun it _ => by
      simp [Function.comp, importItemResult_success])
  rw [bulkImportPOST_eq secure store siteId items hsec hlen]
  refine ⟨rfl, by simp, ?_, ?_, ?_⟩
  · simp only [hcount]
    omega
  · simp only [hcount, List.length_map]
    omega
  · intro r hr hfail
    obtain ⟨it, hit, hmap⟩ := List.mem_map.mp hr
    rw [← hmap] at hfail ⊢
    exact importItemResult_error it hfail

/-- C7 witness: the fault-isolation theorem on a three-item batch whose
middle item has an invalid path. -/
theorem C7_import_fault_isolation_witness :
    (importSecurityBlocked secAll c7Items = false ∧
     c7Items.countP
       (fun it => !(getPredefinedPageByPath it.path).isSome) = 1) ∧
    ((bulkImportPOST secAll [recCareers] siteA c7Items).1.success = true ∧
     (bulkImportPOST secAll [recCareers] siteA c7Items).1.results.length =
       c7Items.length ∧
     (bulkImportPOST secAll [recCareers] siteA c7Items).1.successfulCount =
       c7Items.length - 1 ∧
     (bulkImportPOST secAll [recCareers] siteA c7Items).1.failedCount = 1 ∧
     (∀ r ∈ (bulkImportPOST secAll [recCareers] siteA c7Items).1.results,
       r.success = false → r.error = some "Invalid page path")) :=
  ⟨⟨by decide, by decide⟩,
   C7_import_fault_isolation secAll [recCareers] siteA c7Items
     (by decide) (by decide)⟩

/-! ## C3: the amended redirect-safety theorem -/

/-- The walk flags a loop whenever the new source is reachable from the
destination within the fuel. -/
theorem walk_loop (rs : Redirects) (s f : String) :
    ∀ (fuel k : Nat) (cur : String) (hops : Nat), k < fuel →
      iterSucc rs s k cur = some f →
      (chainWalk rs s f fuel cur hops).isLoop = true := by
  intro fuel
  induction fuel with
  | zero => intro k cur hops hk _; exact absurd hk (Nat.not_lt_zero k)
  | succ n ih =>
    intro k cur hops hk hit
    by_cases hcur : (cur == f) = true
    · simp [chainWalk, hcur]
    · have hk0 : k ≠ 0 := by
        intro h0
        rw [h0] at hit
        simp only [iterSucc, Option.some.injEq] at hit
        exact hcur (by simp [hit])
      obtain ⟨k2, rfl⟩ := Nat.exists_eq_succ_of_ne_zero hk0
      simp only [iterSucc] at hit
      cases hsucc : succOf rs s cur with
      | none => rw [hsucc] at hit; cases hit
      | some y =>
        rw [hsucc] at hit
        simp only [chainWalk, hcur, Bool.false_eq_true, if_false, hsucc]
        exact ih k2 y (hops + 1) (Nat.lt_of_succ_lt_succ hk) hit

/-- The walk flags no loop when the new source is unreachable from the
destination within the fuel. -/
theorem walk_no_loop (rs : Redirects) (s f : String) :
    ∀ (fuel : Nat) (cur : String) (hops : Nat),
      (∀ k, k < fuel → iterSucc rs s k cur ≠ some f) →
      (chainWalk rs s f fuel cur hops).isLoop = false := by
  intro fuel
  induction fuel with
  | zero => intro cur hops _; simp [chainWalk]
  | succ n ih =>
    intro cur hops h
    have hcur : ¬ (cur == f) = true := by
      intro hc
      rw [beq_iff_eq] at hc
      exact h 0 (Nat.succ_pos n)
        (by simp only [iterSucc, Option.some.injEq]; exact hc)
    cases hsucc : succOf rs s cur with
    | none => simp [chainWalk, hcur, hsucc]
    | some y =>
      simp only [chainWalk, hcur, Bool.false_eq_true, if_false, hsucc]
      exact ih y (hops + 1) (fun k hk hit =>
        h (k + 1) (Nat.succ_lt_succ hk)
          (by simp only [iterSucc, hsucc]; exact hit))

/-- The walk's reported depth always counts at least the new redirect. -/
theorem walk_depth_base (rs : Redirects) (s f : String) :
    ∀ (fuel : Nat) (cur : String) (hops : Nat),
      hops + 1 ≤ (chainWalk rs s f fuel cur hops).depth := by
  intro fuel
  induction fuel with
  | zero => intro cur hops; simp [chainWalk]
  | succ n ih =>
    intro cur hops
    by_cases hcur : (cur == f) = true
    · simp [chainWalk, hcur]
    · cases hsucc : succOf rs s cur with
      | none => simp [chainWalk, hcur, hsucc]
      | some y =>
        simp only [chainWalk, hcur, Bool.false_eq_true, if_false, hsucc]
        have := ih y (hops + 1)
        omega

/-- When the chain from the visited node continues for `m` further hops and
never meets the new source, the walk's depth grows accordingly. -/
theorem walk_depth_ge (rs : Redirects) (s f : String) :
    ∀ (m fuel : Nat) (cur : String) (hops : Nat), m ≤ fuel →
      ¬ iterSucc rs s m cur = none →
      (∀ k, k < fuel → iterSucc rs s k cur ≠ some f) →
      hops + m + 1 ≤ (chainWalk rs s f fuel cur hops).depth := by
  intro m
  induction m with
  | zero =>
    intro fuel cur hops _ _ _
    have := walk_depth_base rs s f fuel cur hops
    omega
  | succ m2 ih =>
    intro fuel cur hops hm hiter hno
    obtain ⟨n, rfl⟩ : ∃ n, fuel = n + 1 := by
      rcases fuel with _ | n
      · omega
      · exact ⟨n, rfl⟩
    have hcur : ¬ (cur == f) = true := by
      intro hc
      rw [beq_iff_eq] at hc
      exact hno 0 (Nat.succ_pos n)
        (by simp only [iterSucc, Option.some.injEq]; exact hc)
    cases hsucc : succOf rs s cur with
    | none =>
      simp only [iterSucc, hsucc] at hiter
      exact absurd trivial hiter
    | some y =>
      simp only [chainWalk, hcur, Bool.false_eq_true, if_false, hsucc]
      have hiter2 : ¬ iterSucc rs s m2 y = none := by
        simp only [iterSucc, hsucc] at hiter
        exact hiter
      have hno2 : ∀ k, k < n → iterSucc rs s k y ≠ some f := fun k hk hit =>
        hno (k + 1) (Nat.succ_lt_succ hk)
          (by simp only [iterSucc, hsucc]; exact hit)
      have := ih n y (hops + 1) (Nat.lt_succ_iff.mp hm) hiter2 hno2
      omega

/-- The walk reports a chain exactly when its depth exceeds the new
redirect alone. -/
theorem walk_hasChain (rs : Redirects) (s f : String) :
    ∀ (fuel : Nat) (cur : String) (hops : Nat),
      (chainWalk rs s f fuel cur hops).hasChain =
        decide (1 < (chainWalk rs s f fuel cur hops).depth) := by
  intro fuel
  induction fuel with
  | zero =>
    intro cur hops
    simp only [chainWalk]
    rw [decide_eq_decide]
    omega
  | succ n ih =>
    intro cur hops
    by_cases hcur : (cur == f) = true
    · simp only [chainWalk, hcur, if_true]
      rw [decide_eq_decide]
      omega
    · cases hsucc : succOf rs s cur with
      | none =>
        simp only [chainWalk, hcur, Bool.false_eq_true, if_false, hsucc]
        rw [decide_eq_decide]
        omega
      | some y =>
        simp only [chainWalk, hcur, Bool.false_eq_true, if_false, hsucc]
        exact ih y (hops + 1)

/-- C3 (amended): the safe creator rejects with the loop failure any
addition whose source is reachable by following stored redirects forward
from the destination (the cycle the new edge would close), and rejects with
the chain-too-long failure any addition behind whose destination at least
four stored hops continue without meeting the source (a resulting chain of
length at least 5 from the new source); in both cases nothing is persisted.
Chains ending at the new source are not examined. -/
theorem C3_redirect_safety :
    (∀ (rs : Redirects) (siteId f t : String) (c k : Nat),
      k < maxChainFuel → iterSucc rs siteId k t = some f →
      createRedirectSafely rs siteId f t c =
        ({ success := false, failure? := some RedirectFailure.redirectLoop },
          rs)) ∧
    (∀ (rs : Redirects) (siteId f t : String) (c : Nat),
      (∀ k, k < maxChainFuel → iterSucc rs siteId k t ≠ some f) →
      ¬ iterSucc rs siteId 4 t = none →
      createRedirectSafely rs siteId f t c =
        ({ success := false,
           failure? := some RedirectFailure.redirectChainTooLong }, rs)) := by
  constructor
  · intro rs siteId f t c k hk hit
    have hl := walk_loop rs siteId f maxChainFuel k t 0 hk hit
    simp only [createRedirectSafely, checkRedirectChain, hl, if_true]
  · intro rs siteId f t c hno hiter
    have hnl := walk_no_loop rs siteId f maxChainFuel t 0 hno
    have hdep := walk_depth_ge rs siteId f 4 maxChainFuel t 0
      (by simp [maxChainFuel]) hiter hno
    have hch : (chainWalk rs siteId f maxChainFuel t 0).hasChain = true := by
      rw [walk_hasChain]
      simp only [decide_eq_true_eq]
      omega
    have h5 : 5 ≤ (chainWalk rs siteId f maxChainFuel t 0).depth := by
      omega
    simp only [createRedirectSafely, checkRedirectChain, hnl,
      Bool.false_eq_true, if_false]
    rw [if_pos ⟨hch, h5⟩]

/-- C3 witness: the theorem at the two spec scenarios — a stored redirect
a - b makes the reverse addition b - a fail as a loop, and a four-hop chain
behind the destination makes an addition fail as too long. -/
theorem C3_redirect_safety_witness :
    (1 < maxChainFuel ∧
     iterSucc [mkRedirectS "a" "b"] siteS 1 "a" = some "b") ∧
    createRedirectSafely [mkRedirectS "a" "b"] siteS "b" "a" 301 =
      ({ success := false, failure? := some RedirectFailure.redirectLoop },
        [mkRedirectS "a" "b"]) ∧
    createRedirectSafely rsChain4 siteS "zz" "a" 301 =
      ({ success := false,
         failure? := some RedirectFailure.redirectChainTooLong },
        rsChain4) :=
  ⟨⟨by decide, by decide⟩,
   C3_redirect_safety.1 [mkRedirectS "a" "b"] siteS "b" "a" 301 1
     (by decide) (by decide),
   C3_redirect_safety.2 rsChain4 siteS "zz" "a" 301
     (by decide) (by decide)⟩

/-! ## C5: the amended non-fatal redirect theorem -/

/-- A failed safe redirect creation leaves the redirect store unchanged. -/
theorem createRedirectSafely_fail {rs : Redirects} {s f t : String} {c : Nat}
    (h : (createRedirectSafely rs s f t c).1.success = false) :
    (createRedirectSafely rs s f t c).2 = rs := by
  by_cases h1 : (checkRedirectChain rs s f t).isLoop = true
  · simp [createRedirectSafely, h1]
  · by_cases h2 : (checkRedirectChain rs s f t).hasChain = true ∧
        5 ≤ (checkRedirectChain rs s f t).depth
    · simp [createRedirectSafely, h1, h2]
    · cases hfind : findRedirectFrom rs s f with
      | some r => simp [createRedirectSafely, h1, h2, hfind]
      | none =>
        exfalso
        simp [createRedirectSafely, h1, h2, hfind] at h

/-- C5 (amended): when a PUT changes the slug of an existing record and the
redirect creation fails, the update still succeeds — the merged record with
the new slug is committed, the redirect store is untouched, and the response
reports `redirectCreated = some false`; the failure reason is not part of
the response, whose `error` field stays `none`. -/
theorem C5_redirect_failure_nonfatal (secure : String → Bool)
    (store : Store) (rs : Redirects) (siteId path : String)
    (input : UpsertInput) (pp : PredefinedPage) (r0 : SEOPageRecord)
    (s : String)
    (hpp : getPredefinedPageByPath path = some pp)
    (ht : titleBlocked secure input.metaTitle = false)
    (hd : titleBlocked secure input.metaDescription = false)
    (hguard : slugGuard store siteId path input.slug = false)
    (hf : findOne store siteId path = some r0)
    (hs : input.slug = some s) (hsne : s ≠ "") (hchg : r0.slug ≠ s)
    (hold : r0.slug ≠ "")
    (hfail : (createRedirectSafely rs siteId r0.slug s 301).1.success =
      false) :
    putPage secure store rs siteId path input =
      ({ success := true, status := 200,
         message := some "SEO page updated successfully",
         record? := some (mergeRecord r0 input),
         redirectCreated := some false },
        saveRecord store (mergeRecord r0 input), rs) ∧
    (mergeRecord r0 input).slug = s := by
  have hb1 : (s != "") = true := by simp [bne_iff_ne, hsne]
  have hb2 : (r0.slug != s) = true := by simp [bne_iff_ne, hchg]
  have hb3 : (r0.slug != "") = true := by simp [bne_iff_ne, hold]
  have hrs := createRedirectSafely_fail hfail
  constructor
  · unfold putPage
    rw [hpp]
    simp only [ht, hd, hguard, Bool.false_eq_true, if_false]
    rw [hf, hs]
    simp only [hb1, hb2, hb3, Bool.true_and, Bool.and_true, if_true,
      Bool.and_self, hfail, hrs]
  · simp [mergeRecord, hs]

/-- C5 witness: the non-fatal theorem at the loop-closing scenario. -/
theorem C5_redirect_failure_nonfatal_witness :
    ((createRedirectSafely rsNewOld siteA recAbout.slug "about-us-new"
        301).1.success = false ∧
     findOne [recAbout] siteA "/about" = some recAbout) ∧
    (putPage secAll [recAbout] rsNewOld siteA "/about" c5Input =
      ({ success := true, status := 200,
         message := some "SEO page updated successfully",
         record? := some (mergeRecord recAbout c5Input),
         redirectCreated := some false },
        saveRecord [recAbout] (mergeRecord recAbout c5Input), rsNewOld) ∧
     (mergeRecord recAbout c5Input).slug = "about-us-new") :=
  ⟨⟨by decide, by decide⟩,
   C5_redirect_failure_nonfatal secAll [recAbout] rsNewOld siteA
     "/about" c5Input ppAbout recAbout "about-us-new" (by decide) (by decide)
     (by decide) (by decide) (by decide) (by decide) (by decide) (by decide)
     (by decide) (by decide)⟩

/-! ## C6: the amended bulk validation theorem -/

/-- A path outside the catalog makes the invalid-path filter non-empty. -/
theorem invalid_filter_pos {paths : List String} {p : String}
    (hp : p ∈ paths)
    (hinv : getPredefinedPageByPath p = none) :
    0 < (paths.filter
      (fun q => (getPredefinedPageByPath q).isNone)).length := by
  rw [← List.countP_eq_length_filter, List.countP_pos_iff]
  exact ⟨p, hp, by simp [hinv]⟩

/-- C6 (amended): when any supplied path is outside the catalog, the bulk
update of the bulk endpoint and every update, delete and reset through the
collection route's bulk PUT fail up front with the invalid-paths error and
leave the store untouched; the bulk endpoint's delete and reset cases
perform no such validation. -/
theorem C6_bulk_path_validation :
    (∀ (secure : String → Bool) (store : Store) (siteId : String)
       (paths : List String) (d : BulkData) (p : String),
      titleBlocked secure d.metaTitle = false →
      titleBlocked secure d.metaDescription = false →
      p ∈ paths → getPredefinedPageByPath p = none →
      bulkUpdatePOST secure store siteId paths d =
        ({ success := false, status := 400,
           error := some "Invalid paths" }, store)) ∧
    (∀ (store : Store) (siteId : String) (op : BulkOp)
       (paths : List String) (d : Option BulkData)
       (items : List ImportItem) (p : String),
      op = BulkOp.update ∨ op = BulkOp.delete ∨ op = BulkOp.reset →
      p ∈ paths → getPredefinedPageByPath p = none →
      bulkPUT store siteId op paths d items =
        ({ success := false, status := 400,
           error := some "Invalid paths" }, store)) := by
  constructor
  · intro secure store siteId paths d p ht hd hp hinv
    unfold bulkUpdatePOST
    simp only [ht, hd, Bool.false_eq_true, if_false]
    rw [if_pos (invalid_filter_pos hp hinv)]
  · intro store siteId op paths d items p _ hp hinv
    unfold bulkPUT
    rw [if_pos (invalid_filter_pos hp hinv)]

/-- C6 witness: the validation theorem at a two-path update containing an
invalid path, through both endpoints. -/
theorem C6_bulk_path_validation_witness :
    (("/bogus" : String) ∈ ["/bogus", "/about"] ∧
     getPredefinedPageByPath "/bogus" = none) ∧
    (bulkUpdatePOST secAll [recAbout] siteA ["/bogus", "/about"]
        { metaTitle := some "T" } =
      ({ success := false, status := 400,
         error := some "Invalid paths" }, [recAbout]) ∧
     bulkPUT [recAbout] siteA BulkOp.delete ["/bogus", "/about"] none [] =
      ({ success := false, status := 400,
         error := some "Invalid paths" }, [recAbout])) :=
  ⟨⟨by decide, by decide⟩,
   C6_bulk_path_validation.1 secAll [recAbout] siteA ["/bogus", "/about"]
     { metaTitle := some "T" } "/bogus" (by decide) (by decide) (by decide)
     (by decide),
   C6_bulk_path_validation.2 [recAbout] siteA BulkOp.delete
     ["/bogus", "/about"] none [] "/bogus" (Or.inr (Or.inl rfl)) (by decide)
     (by decide)⟩

/-! ## C9: path decoding -/

/-- Percent-decoding is the identity on inputs without a percent sign. -/
theorem percentDecode_no_pct :
    ∀ cs : List Char, '%' ∉ cs → percentDecode cs = some cs := by
  intro cs
  induction cs with
  | nil => intro _; rfl
  | cons c rest ih =>
    intro h
    have hc : ¬ c = '%' := fun hc => h (List.mem_cons.mpr (Or.inl hc.symm))
    have hrest : '%' ∉ rest := fun hm => h (List.mem_cons_of_mem c hm)
    rw [percentDecode.eq_def]
    dsimp only
    rw [if_neg hc, ih hrest]
    rfl

/-- C9: for a canonical catalog path — percent-free, one leading slash, and
not the special home path — the parameter with the slash and the parameter
without it decode to the same path, so both address the same page, while a
parameter that fails percent-decoding yields the invalid-encoding error. -/
theorem C9_decode_path (rest : List Char) (hpct : '%' ∉ rest)
    (hhome : rest ≠ homeChars) (hslash : rest.head? ≠ some '/') :
    decodePath ('/' :: rest) = some ('/' :: rest) ∧
    decodePath rest = some ('/' :: rest) ∧
    decodePath ['%'] = none := by
  have hp1 : percentDecode ('/' :: rest) = some ('/' :: rest) :=
    percentDecode_no_pct _ (by
      intro hm
      rcases List.mem_cons.mp hm with h1 | h2
      · cases h1
      · exact hpct h2)
  have hp2 := percentDecode_no_pct rest hpct
  refine ⟨?_, ?_, rfl⟩
  · unfold decodePath
    rw [hp1]
    dsimp only
    rw [if_neg]
    intro hcond
    exact hcond.2 rfl
  · unfold decodePath
    rw [hp2]
    dsimp only
    rw [if_pos ⟨hhome, hslash⟩]

/-- C9 witness: the decoding theorem at the about path. -/
theorem C9_decode_path_witness :
    ('%' ∉ ['a', 'b', 'o', 'u', 't'] ∧
     ['a', 'b', 'o', 'u', 't'] ≠ homeChars) ∧
    (decodePath ('/' :: ['a', 'b', 'o', 'u', 't']) =
       some ('/' :: ['a', 'b', 'o', 'u', 't']) ∧
     decodePath ['a', 'b', 'o', 'u', 't'] =
       some ('/' :: ['a', 'b', 'o', 'u', 't']) ∧
     decodePath ['%'] = none) :=
  ⟨⟨by decide, by decide⟩,
   C9_decode_path ['a', 'b', 'o', 'u', 't'] (by decide) (by decide)
     (by decide)⟩

end Seo
